import Mathlib

/-!
Verification development for the WebDAV demo repository: a shallow embedding
of the Express gateway (webdav-server/server.js) and of the file-manager
client (webdav-client/src/App.js), with theorems about the behaviour the
specification describes.  Urls are modelled without query strings and path
matching is case-sensitive; dates and locales are modelled parametrically
where their concrete values never matter.
-/

namespace WebDavDemo

/-- Alphabet used by the base64 decoder and encoder. -/
def b64Alphabet : List Char :=
  "ABCDEFGHIJKLMNOPQRSTUVWXYZabcdefghijklmnopqrstuvwxyz0123456789+/".data

/-- Position of a character in the base64 alphabet; the URL-safe variants are
also accepted, as Node's decoder does.  Characters outside the alphabet
(including the padding sign) yield none and are skipped, which matches the
forgiving decoding of Buffer.from on well-formed base64 input. -/
def b64Index (c : Char) : Option Nat :=
  if c = '-' then some 62
  else if c = '_' then some 63
  else List.findIdx? (fun d => d = c) b64Alphabet

/-- Sextet groups to bytes: three bytes per four sextets; a trailing group of
two or three sextets contributes one or two bytes, a lone sextet none. -/
def b64Bytes : List Nat → List Nat
  | a :: b :: c :: d :: rest =>
      (a * 4 + b / 16) :: ((b % 16) * 16 + c / 4) :: ((c % 4) * 64 + d) :: b64Bytes rest
  | [a, b] => [a * 4 + b / 16]
  | [a, b, c] => [a * 4 + b / 16, (b % 16) * 16 + c / 4]
  | _ => []

/-- Model of Buffer.from(s, 'base64').toString('ascii'): decode the base64
payload and read the bytes as ascii, masking each byte to seven bits. -/
def b64ToAscii (s : String) : String :=
  String.mk ((b64Bytes (s.data.filterMap b64Index)).map (fun b => Char.ofNat (b % 128)))

/-- Byte triples to base64 characters with padding, as btoa produces. -/
def b64Chunks : List Nat → List Char
  | x :: y :: z :: rest =>
      b64Alphabet.getD (x / 4) 'A' :: b64Alphabet.getD ((x % 4) * 16 + y / 16) 'A' ::
      b64Alphabet.getD ((y % 16) * 4 + z / 64) 'A' :: b64Alphabet.getD (z % 64) 'A' ::
      b64Chunks rest
  | [x, y] =>
      [b64Alphabet.getD (x / 4) 'A', b64Alphabet.getD ((x % 4) * 16 + y / 16) 'A',
       b64Alphabet.getD ((y % 16) * 4) 'A', '=']
  | [x] =>
      [b64Alphabet.getD (x / 4) 'A', b64Alphabet.getD ((x % 4) * 16) 'A', '=', '=']
  | [] => []

/-- Model of btoa on latin-1 input: base64 of the character codes. -/
def btoa (s : String) : String :=
  String.mk (b64Chunks (s.data.map (fun c => c.toNat % 256)))

/-- Split of a character list at every occurrence of a separator, keeping
empty pieces, with the piece accumulated so far as third argument. -/
def splitCharAux (sep : Char) : List Char → List Char → List (List Char)
  | [], acc => [acc.reverse]
  | c :: cs, acc =>
    if c = sep then acc.reverse :: splitCharAux sep cs [] else splitCharAux sep cs (c :: acc)

/-- JavaScript String.split with a single-character separator. -/
def strSplit (s : String) (sep : Char) : List String :=
  (splitCharAux sep s.data []).map String.mk

/-- Prefix test on strings (as String.prototype.startsWith and an anchored
literal regex behave). -/
def strStarts (s p : String) : Bool :=
  p.data.isPrefixOf s.data

/-- Removal of the first n characters of a string. -/
def strDrop (s : String) (n : Nat) : String :=
  String.mk (s.data.drop n)

/-- Concatenation of pieces with a colon between them (String.split's
inverse on the tail pieces, used to state what a real basic-auth password
is). -/
def joinColon (ps : List String) : String :=
  String.mk (List.intercalate [':'] (ps.map String.data))

/-- JavaScript string alternative a || b, where an absent value and the empty
string are falsy. -/
def jsOr (o : Option String) (d : String) : String :=
  match o with
  | some s => if s = "" then d else s
  | none => d

/-- Inbound HTTP request as seen by the Express gateway. -/
structure Request where
  method : String
  url : String
  origin : Option String
  host : String
  authorization : Option String
  deriving DecidableEq, Repr

/-- Response body forms the gateway produces, together with the empty body
(for comparison with the specification's wording).  The jsonError form
stands for the one-field JSON object that res.status(c).json produces. -/
inductive Body where
  | empty : Body
  | text : String → Body
  | jsonError : String → Body
  | notFound : Body
  | internalError : Body
  deriving DecidableEq, Repr

/-- Emptiness of a response body. -/
def bodyEmpty : Body → Bool
  | .empty => true
  | .text s => s = ""
  | _ => false

structure HttpResponse where
  status : Nat
  headers : List (String × String)
  body : Body
  deriving DecidableEq, Repr

/-- Outcome of the middleware chain on one request: either a response the
gateway produces itself, or a hand-off to the embedded WebDAV engine with
the rewritten url (the response headers are already set at that point). -/
inductive GatewayResult where
  | respond : HttpResponse → GatewayResult
  | forward : String → List (String × String) → GatewayResult
  deriving DecidableEq, Repr

/-- Headers set by the CORS middleware: the allow-origin value echoes the
request's Origin header, falling back to https plus the Host header. -/
def corsHeaders (req : Request) : List (String × String) :=
  [("Access-Control-Allow-Origin", jsOr req.origin ("https://" ++ req.host)),
   ("Access-Control-Allow-Methods", "GET, POST, PUT, DELETE, PROPFIND, MKCOL, OPTIONS"),
   ("Access-Control-Allow-Headers", "Content-Type, Depth, Authorization"),
   ("Access-Control-Allow-Credentials", "true"),
   ("Access-Control-Expose-Headers", "ETag")]

/-- Express mounts at /api match the exact path or any path continuing with a
slash. -/
def mountMatches (url : String) : Bool :=
  url = "/api" || strStarts url "/api/"

/-- Url that Express presents inside a handler mounted at /api: the mount
point is removed and an empty remainder becomes the root path. -/
def mountRemainder (url : String) : String :=
  let r := strDrop url 4
  if r = "" then "/" else r

/-- The engine handler's own rewrite: req.url.replace of one leading /api,
then the or-slash default.  It runs on the already mount-stripped url, so it
only changes anything when the remainder itself begins with /api again. -/
def apiStrip (u : String) : String :=
  let r := if strStarts u "/api" then strDrop u 4 else u
  if r = "" then "/" else r

/-- Decision of the basic-auth middleware on the Authorization header.
noHeader: header absent or empty (falsy).  error: the header has no second
whitespace-separated token, so Buffer.from is applied to undefined and
throws, which Express turns into a 500 via its default error handler. -/
inductive AuthDecision where
  | noHeader | accept | reject | error
  deriving DecidableEq, Repr

/-- The auth middleware's check: split the header on spaces, base64-decode
the second token, split the result on colons, and compare the first field
with WebDavDemo and the second with WebDavPassword. -/
def authCheck (authorization : Option String) : AuthDecision :=
  match authorization with
  | none => .noHeader
  | some h =>
    if h = "" then .noHeader
    else
      match (strSplit h ' ').get? 1 with
      | none => .error
      | some tok =>
        let credentials := b64ToAscii tok
        let fields := strSplit credentials ':'
        if fields.getD 0 "" = "WebDavDemo" ∧ fields.get? 1 = some "WebDavPassword" then
          .accept
        else .reject

/-- Composition of the middleware chain of server.js in development mode:
CORS (with the OPTIONS short-circuit res.sendStatus 200, whose body is the
status message OK), logging (no effect on the response), the basic-auth
guard on the /api mount, the engine mount with its url rewrite, and the
Express defaults (404 for unmatched routes, 500 when a middleware throws). -/
def gateway (req : Request) : GatewayResult :=
  let ch := corsHeaders req
  if req.method = "OPTIONS" then
    .respond ⟨200, ch, .text "OK"⟩
  else if mountMatches req.url then
    match authCheck req.authorization with
    | .noHeader => .respond ⟨401, ch, .jsonError "Authentication required"⟩
    | .reject => .respond ⟨401, ch, .jsonError "Invalid credentials"⟩
    | .error => .respond ⟨500, ch, .internalError⟩
    | .accept => .forward (apiStrip (mountRemainder req.url)) ch
  else
    .respond ⟨404, ch, .notFound⟩

/-- First value carried for a header name, if any. -/
def headerVal (hs : List (String × String)) (nm : String) : Option String :=
  match hs.find? (fun p => p.1 = nm) with
  | some p => some p.2
  | none => none

/-- Presence of a header name. -/
def hasHeader (hs : List (String × String)) (nm : String) : Bool :=
  (hs.find? (fun p => p.1 = nm)).isSome

/-- Headers attached to either outcome of the gateway. -/
def resultHeaders : GatewayResult → List (String × String)
  | .respond r => r.headers
  | .forward _ hs => hs

/-- Stated-claim url rewrite: the request url with one leading /api removed,
an empty remainder becoming the root path (the claim's wording). -/
def specStripApi (u : String) : String :=
  if strStarts u "/api" then
    (let r := strDrop u 4
     if r = "" then "/" else r)
  else u

/-- Stated-claim reading of the Authorization header as HTTP basic
credentials: a Basic scheme token followed by base64 of name, colon,
password, the password being everything after the first colon. -/
def basicCredentials (h : String) : Option (String × String) :=
  match strSplit h ' ' with
  | [scheme, tok] =>
    if scheme = "Basic" then
      match strSplit (b64ToAscii tok) ':' with
      | [] => none
      | u :: rest =>
        match rest with
        | [] => none
        | _ => some (u, joinColon rest)
    else none
  | _ => none

/-- Number as JavaScript parseInt produces it: an integer or NaN. -/
inductive JsNum where
  | nan : JsNum
  | int : Int → JsNum
  deriving DecidableEq, Repr

/-- Decimal digits read greedily from the front of a character list. -/
def leadingDigits : List Char → List Nat
  | c :: cs => if c.isDigit then (c.toNat - 48) :: leadingDigits cs else []
  | [] => []

/-- Value of a digit list. -/
def digitsVal (ds : List Nat) : Nat := ds.foldl (fun a d => a * 10 + d) 0

/-- Model of parseInt without a radix argument on decimal input: leading
spaces skipped, an optional sign, then greedy decimal digits; NaN when no
digit is found.  The hexadecimal prefix form is outside the model. -/
def parseIntJs (s : String) : JsNum :=
  match s.data.dropWhile (fun c => c = ' ') with
  | '-' :: rest =>
    match leadingDigits rest with
    | [] => .nan
    | ds => .int (-(digitsVal ds : Int))
  | '+' :: rest =>
    match leadingDigits rest with
    | [] => .nan
    | ds => .int (digitsVal ds)
  | rest =>
    match leadingDigits rest with
    | [] => .nan
    | ds => .int (digitsVal ds)

/-- Hex value of a character, when it is a hexadecimal digit. -/
def hexVal (c : Char) : Option Nat :=
  if c.isDigit then some (c.toNat - 48)
  else if 'a' ≤ c ∧ c ≤ 'f' then some (c.toNat - 87)
  else if 'A' ≤ c ∧ c ≤ 'F' then some (c.toNat - 55)
  else none

/-- Model of decodeURIComponent restricted to ascii percent escapes: a
percent sign followed by two hexadecimal digits becomes the coded character
and other characters pass through; multibyte utf-8 escapes and the URIError
on malformed escapes are outside the model. -/
def percentDecode : List Char → List Char
  | '%' :: h1 :: h2 :: rest =>
    match hexVal h1, hexVal h2 with
    | some a, some b => Char.ofNat (a * 16 + b) :: percentDecode rest
    | _, _ => '%' :: percentDecode (h1 :: h2 :: rest)
  | c :: rest => c :: percentDecode rest
  | [] => []

/-- Fields the client reads from one element of the multistatus response,
after the optional-chaining walks of the JSON shape; an absent node gives
none. -/
structure RawResponse where
  href : String
  displayname : Option String
  isCollection : Bool
  lastModified : Option String
  contentLength : Option String
  deriving DecidableEq, Repr

/-- Shape of one displayed file entry, as pushed onto the file list. -/
structure Entry where
  name : String
  href : String
  isDirectory : Bool
  lastModified : String
  size : JsNum
  deriving DecidableEq, Repr

/-- Construction of a displayed entry from a response element: the display
name or else the decoded last href segment, the collection flag, the
formatted modification date (fmt stands for the locale rendering that new
Date followed by toLocaleString performs) and the parsed content length. -/
def mkEntry (fmt : String → String) (r : RawResponse) : Entry :=
  { name := jsOr r.displayname
      (String.mk (percentDecode ((strSplit r.href '/').getLastD "").data)),
    href := r.href,
    isDirectory := r.isCollection,
    lastModified := match r.lastModified with
      | some s => if s = "" then "" else fmt s
      | none => "",
    size := match r.contentLength with
      | some s => if s = "" then .int 0 else parseIntJs s
      | none => .int 0 }

/-- The fetch loop of fetchFiles: every response element except the one whose
href is the literal local root url becomes an entry. -/
def buildFileList (fmt : String → String) : List RawResponse → List Entry
  | [] => []
  | r :: rest =>
    if r.href = "http://localhost:8080/" then buildFileList fmt rest
    else mkEntry fmt r :: buildFileList fmt rest

/-- Case-insensitive primary key of a character: its lowercased code. -/
def lowerCode (c : Char) : Nat := c.toLower.toNat

/-- Case key of a character: lowercase and caseless characters order before
uppercase ones when the default collation breaks a primary tie. -/
def caseCode (c : Char) : Nat := if c.isUpper then 1 else 0

/-- Three-way comparison of code lists. -/
def cmpCodes : List Nat → List Nat → Ordering
  | [], [] => .eq
  | [], _ :: _ => .lt
  | _ :: _, [] => .gt
  | x :: xs, y :: ys => if x < y then .lt else if y < x then .gt else cmpCodes xs ys

/-- Primary collation key of a string: the lowercased character codes. -/
def primKey (s : String) : List Nat := s.data.map lowerCode

/-- Tie-breaking collation key of a string: the case keys. -/
def caseKey (s : String) : List Nat := s.data.map caseCode

/-- Model of localeCompare under the default locale, restricted to ascii
strings: the primary comparison ignores letter case, and a primary tie is
broken by the case keys, lowercase first; the result is minus one, zero or
one. -/
def localeCompare (a b : String) : Int :=
  match cmpCodes (primKey a) (primKey b) with
  | .lt => -1
  | .gt => 1
  | .eq =>
    match cmpCodes (caseKey a) (caseKey b) with
    | .lt => -1
    | .gt => 1
    | .eq => 0

/-- The sort comparator of fetchFiles: entries of one kind compare by
localeCompare of their names, and a directory orders before a file. -/
def entryCmp (a b : Entry) : Int :=
  if a.isDirectory = b.isDirectory then localeCompare a.name b.name
  else if a.isDirectory then -1 else 1

/-- At-most relation induced by the comparator: a may stay before b. -/
def entryLe (a b : Entry) : Bool := entryCmp a b ≤ 0

/-- Insertion of an element into a list at the first position whose
inhabitant may follow it. -/
def insertLe {α : Type} (le : α → α → Bool) (x : α) : List α → List α
  | [] => [x]
  | y :: ys => if le x y then x :: y :: ys else y :: insertLe le x ys

/-- Stable insertion sort, the model of Array.prototype.sort with a
consistent comparator. -/
def insertionSort {α : Type} (le : α → α → Bool) : List α → List α
  | [] => []
  | x :: xs => insertLe le x (insertionSort le xs)

/-- The sort applied to the parsed file list. -/
def sortEntries (l : List Entry) : List Entry := insertionSort entryLe l

/-- Browser file object as uploadFile reads it. -/
structure JsFile where
  name : String
  mime : String
  content : List Nat
  deriving DecidableEq, Repr

/-- Client-side state the claims touch: the rendered list, the selections,
the status line, the authentication state, the default Authorization header
of the axios instance, and the credential persisted in local storage. -/
structure ClientState where
  files : List Entry
  selectedFile : Option JsFile
  folderName : String
  status : String
  isAuthenticated : Bool
  authCredentials : Option (String × String)
  defaultAuthHeader : Option String
  storedCredentials : Option String
  deriving DecidableEq, Repr

/-- One HTTP request the client issues. -/
structure ClientRequest where
  method : String
  url : String
  headers : List (String × String)
  content : List Nat
  deriving DecidableEq, Repr

/-- Outcome of the listing request as fetchFiles distinguishes them: a
resolved multistatus already parsed into elements, an HTTP error response,
no response at all, or a thrown setup error. -/
inductive FetchOutcome where
  | ok : List RawResponse → FetchOutcome
  | httpError : Nat → String → FetchOutcome
  | noResponse : FetchOutcome
  | setupError : String → FetchOutcome
  deriving DecidableEq, Repr

/-- Outcome of one axios request: a response with its status code (axios
itself rejects when the status is outside the two hundreds), or no response
with an error message. -/
inductive AxiosOutcome where
  | status : Nat → AxiosOutcome
  | networkError : String → AxiosOutcome
  deriving DecidableEq, Repr

/-- Result the handleLogin promise settles with. -/
inductive LoginResult where
  | ok : LoginResult
  | err : String → LoginResult
  deriving DecidableEq, Repr

/-- The listing request: PROPFIND against the root with depth one. -/
def propfindRootRequest : ClientRequest := ⟨"PROPFIND", "/", [("Depth", "1")], []⟩

/-- The login probe: the same PROPFIND with explicit content type headers. -/
def loginRequest : ClientRequest :=
  ⟨"PROPFIND", "/",
    [("Depth", "1"), ("Content-Type", "application/xml"), ("Accept", "application/json")], []⟩

/-- fetchFiles: issue the listing PROPFIND; on a parsed multistatus, build
and sort the entries, install them when nonempty; otherwise (or on any
error) only the status line changes. -/
def fetchFiles (fmt : String → String) (st : ClientState) :
    FetchOutcome → ClientState × List ClientRequest
  | .ok rs =>
    let sorted := sortEntries (buildFileList fmt rs)
    if 0 < sorted.length then
      ({st with files := sorted, status := "Files fetched successfully"}, [propfindRootRequest])
    else
      ({st with status := "No files or folders found"}, [propfindRootRequest])
  | .httpError s t =>
    ({st with status := "Server error: " ++ toString s ++ " - " ++ t}, [propfindRootRequest])
  | .noResponse =>
    ({st with status := "No response from server. Is the server running?"}, [propfindRootRequest])
  | .setupError m =>
    ({st with status := "Error: " ++ m}, [propfindRootRequest])

/-- handleLogin: set the default Authorization header to the encoded pair,
probe with the login PROPFIND, and on status exactly 207 or 200 record the
credentials, persist them and refresh the listing; any other outcome
(including the non-2xx statuses axios rejects) runs the catch block, which
deletes the default header and the stored credential and rethrows. -/
def handleLogin (fmt : String → String) (st : ClientState) (username password : String)
    (login : AxiosOutcome) (fetch : FetchOutcome) :
    ClientState × List ClientRequest × LoginResult :=
  let cred := btoa (username ++ ":" ++ password)
  let st1 := {st with defaultAuthHeader := some ("Basic " ++ cred)}
  match login with
  | .status n =>
    if 200 ≤ n ∧ n < 300 then
      if n = 207 ∨ n = 200 then
        let st2 := {st1 with authCredentials := some (username, password),
                             isAuthenticated := true, storedCredentials := some cred}
        let fr := fetchFiles fmt st2 fetch
        (fr.1, loginRequest :: fr.2, .ok)
      else
        ({st1 with defaultAuthHeader := none, storedCredentials := none}, [loginRequest],
          .err "Authentication failed: Unexpected response status")
    else
      ({st1 with defaultAuthHeader := none, storedCredentials := none}, [loginRequest],
        .err (if n = 401 then "Invalid credentials"
          else "Authentication failed: Request failed with status code " ++ toString n))
  | .networkError m =>
    ({st1 with defaultAuthHeader := none, storedCredentials := none}, [loginRequest],
      .err ("Authentication failed: " ++ m))

/-- Outcome of the file reader on the selected file. -/
inductive ReadOutcome where
  | ok : ReadOutcome
  | err : ReadOutcome
  deriving DecidableEq, Repr

/-- uploadFile: without a selected file only the status line changes and no
request is issued; otherwise the file content is read and sent with a single
PUT, refreshing the listing on success. -/
def uploadFile (fmt : String → String) (st : ClientState) (read : ReadOutcome)
    (put : AxiosOutcome) (fetch : FetchOutcome) : ClientState × List ClientRequest :=
  match st.selectedFile with
  | none => ({st with status := "Please select a file first"}, [])
  | some f =>
    match read with
    | .err => ({st with status := "Failed to read file"}, [])
    | .ok =>
      let req : ClientRequest := ⟨"PUT", "/" ++ f.name,
        [("Content-Type", jsOr (some f.mime) "application/octet-stream")], f.content⟩
      match put with
      | .status n =>
        if 200 ≤ n ∧ n < 300 then
          let fr := fetchFiles fmt {st with status := "File uploaded successfully!"} fetch
          (fr.1, req :: fr.2)
        else
          ({st with status :=
            "Upload failed: Request failed with status code " ++ toString n}, [req])
      | .networkError m => ({st with status := "Upload failed: " ++ m}, [req])

/-- createFolder: with an empty (falsy) folder name only the status line
changes and no request is issued; otherwise a single MKCOL is sent, and on
success the name field is cleared and the listing refreshed. -/
def createFolder (fmt : String → String) (st : ClientState)
    (mk : AxiosOutcome) (fetch : FetchOutcome) : ClientState × List ClientRequest :=
  if st.folderName = "" then ({st with status := "Please enter a folder name"}, [])
  else
    let req : ClientRequest := ⟨"MKCOL", "/" ++ st.folderName, [], []⟩
    match mk with
    | .status n =>
      if 200 ≤ n ∧ n < 300 then
        let fr := fetchFiles fmt
          {st with status := "Folder created successfully!", folderName := ""} fetch
        (fr.1, req :: fr.2)
      else
        ({st with status :=
          "Folder creation error: Request failed with status code " ++ toString n}, [req])
    | .networkError m => ({st with status := "Folder creation error: " ++ m}, [req])

/-- Helper: on the api mount (outside the OPTIONS short-circuit) the gateway
forwards to the engine exactly when the auth middleware accepts. -/
lemma forward_iff_accept (req : Request) (hm : req.method ≠ "OPTIONS")
    (hmt : mountMatches req.url = true) :
    (∃ u, gateway req = .forward u (corsHeaders req)) ↔
      authCheck req.authorization = .accept := by
  cases hca : authCheck req.authorization <;> simp [gateway, hm, hmt, hca]

/-- Helper: on the api mount, any response the gateway produces itself
carries status 401 or 500. -/
lemma gateway_api_respond_status (req : Request) (hm : req.method ≠ "OPTIONS")
    (hmt : mountMatches req.url = true) (resp : HttpResponse)
    (h : gateway req = .respond resp) : resp.status = 401 ∨ resp.status = 500 := by
  cases hca : authCheck req.authorization <;> simp [gateway, hm, hmt, hca] at h
  case noHeader => rw [← h]; left; rfl
  case reject => rw [← h]; left; rfl
  case error => rw [← h]; right; rfl

/-- Helper: the CORS middleware never sets a WWW-Authenticate header. -/
lemma corsHeaders_no_challenge (req : Request) :
    hasHeader (corsHeaders req) "WWW-Authenticate" = false := by
  simp [hasHeader, corsHeaders, List.find?]

/-- Helper: the allow-origin header value the CORS middleware sets. -/
lemma corsHeaders_acao (req : Request) :
    headerVal (corsHeaders req) "Access-Control-Allow-Origin" =
      some (jsOr req.origin ("https://" ++ req.host)) := by
  simp [headerVal, corsHeaders, List.find?]

/-- Helper: every gateway outcome carries exactly the CORS middleware
headers. -/
lemma resultHeaders_gateway (req : Request) :
    resultHeaders (gateway req) = corsHeaders req := by
  by_cases hm : req.method = "OPTIONS"
  · simp [gateway, hm, resultHeaders]
  · by_cases hmt : mountMatches req.url
    · cases hca : authCheck req.authorization <;>
        simp [gateway, hm, hmt, hca, resultHeaders]
    · simp [gateway, hm, hmt, resultHeaders]

/-- C1 (corrected): a request on the api mount without credentials receives
status 401, but the response has no WWW-Authenticate challenge header (the
body is a JSON error object instead), contrary to the claim. -/
theorem c1_counterexample :
    gateway ⟨"PROPFIND", "/api/", none, "localhost:8080", none⟩ =
      .respond ⟨401, corsHeaders ⟨"PROPFIND", "/api/", none, "localhost:8080", none⟩,
        .jsonError "Authentication required"⟩ ∧
    hasHeader (corsHeaders ⟨"PROPFIND", "/api/", none, "localhost:8080", none⟩)
      "WWW-Authenticate" = false := by
  constructor
  · decide
  · decide

/-- C1 (amended): every request on the api mount (other than OPTIONS) whose
Authorization header is absent, or whose decoded credentials fail the check,
receives status 401 with a JSON error body and no WWW-Authenticate header. -/
theorem c1_api_401_without_challenge (req : Request)
    (hm : req.method ≠ "OPTIONS") (hmt : mountMatches req.url = true)
    (hauth : authCheck req.authorization = .noHeader ∨
      authCheck req.authorization = .reject) :
    ∃ resp, gateway req = .respond resp ∧ resp.status = 401 ∧
      hasHeader resp.headers "WWW-Authenticate" = false ∧
      ∃ msg, resp.body = .jsonError msg := by
  rcases hauth with h | h
  · exact ⟨⟨401, corsHeaders req, .jsonError "Authentication required"⟩,
      by simp [gateway, hm, hmt, h], rfl, corsHeaders_no_challenge req,
      "Authentication required", rfl⟩
  · exact ⟨⟨401, corsHeaders req, .jsonError "Invalid credentials"⟩,
      by simp [gateway, hm, hmt, h], rfl, corsHeaders_no_challenge req,
      "Invalid credentials", rfl⟩

/-- C1 witness: the amended theorem applied to a concrete credential-less
request. -/
theorem c1_witness :
    ∃ resp, gateway ⟨"PROPFIND", "/api/", none, "localhost:8080", none⟩ = .respond resp ∧
      resp.status = 401 ∧ hasHeader resp.headers "WWW-Authenticate" = false ∧
      ∃ msg, resp.body = .jsonError msg :=
  c1_api_401_without_challenge ⟨"PROPFIND", "/api/", none, "localhost:8080", none⟩
    (by decide) (by decide) (Or.inl (by decide))

/-- C2 (corrected): two requests that differ only in their Origin header get
different Access-Control-Allow-Origin values, so the value is not a fixed
configured origin but echoes the request. -/
theorem c2_counterexample :
    headerVal (resultHeaders (gateway
        ⟨"GET", "/index.html", some "http://a.example", "demo.example", none⟩))
      "Access-Control-Allow-Origin" = some "http://a.example" ∧
    headerVal (resultHeaders (gateway
        ⟨"GET", "/index.html", some "http://b.example", "demo.example", none⟩))
      "Access-Control-Allow-Origin" = some "http://b.example" ∧
    ("http://a.example" : String) ≠ "http://b.example" := by
  refine ⟨by decide, by decide, by decide⟩

/-- C2 (amended): on every request the gateway sets the fixed method, header,
credentials and expose headers, and an Access-Control-Allow-Origin whose
value echoes the request Origin header, falling back to https plus the Host
header when Origin is absent or empty. -/
theorem c2_cors_origin_echoes_request (req : Request) :
    headerVal (resultHeaders (gateway req)) "Access-Control-Allow-Origin" =
      some (jsOr req.origin ("https://" ++ req.host)) ∧
    headerVal (resultHeaders (gateway req)) "Access-Control-Allow-Methods" =
      some "GET, POST, PUT, DELETE, PROPFIND, MKCOL, OPTIONS" ∧
    headerVal (resultHeaders (gateway req)) "Access-Control-Allow-Headers" =
      some "Content-Type, Depth, Authorization" := by
  rw [resultHeaders_gateway]
  exact ⟨corsHeaders_acao req, by simp [headerVal, corsHeaders, List.find?],
    by simp [headerVal, corsHeaders, List.find?]⟩

/-- C3 (corrected): an authenticated request to /api/api/notes is handed to
the engine as /notes, not as /api/notes (the single-strip the claim states):
the Express mount already removed one /api, and the handler rewrite removes
a second one when the remainder begins with /api again. -/
theorem c3_counterexample :
    gateway ⟨"GET", "/api/api/notes", none, "localhost:8080",
        some "Basic V2ViRGF2RGVtbzpXZWJEYXZQYXNzd29yZA=="⟩ =
      .forward "/notes" (corsHeaders ⟨"GET", "/api/api/notes", none, "localhost:8080",
        some "Basic V2ViRGF2RGVtbzpXZWJEYXZQYXNzd29yZA=="⟩) ∧
    specStripApi "/api/api/notes" = "/api/notes" ∧
    ("/notes" : String) ≠ "/api/notes" := by
  refine ⟨by decide, by decide, by decide⟩

/-- C3 (amended): every authenticated non-OPTIONS request on the api mount is
forwarded with the mount prefix removed and a second leading /api removed as
well when present (empty remainder becoming the root path); in particular
/api/foo goes to /foo and /api alone goes to /. -/
theorem c3_engine_url (req : Request) (hm : req.method ≠ "OPTIONS")
    (hmt : mountMatches req.url = true)
    (hacc : authCheck req.authorization = .accept) :
    gateway req = .forward (apiStrip (mountRemainder req.url)) (corsHeaders req) ∧
    apiStrip (mountRemainder "/api/foo") = "/foo" ∧
    apiStrip (mountRemainder "/api") = "/" := by
  refine ⟨?_, by decide, by decide⟩
  simp [gateway, hm, hmt, hacc]

/-- C3 witness: the amended theorem applied to a concrete authenticated
request for /api/foo. -/
theorem c3_witness :
    gateway ⟨"PROPFIND", "/api/foo", none, "localhost:8080",
        some "Basic V2ViRGF2RGVtbzpXZWJEYXZQYXNzd29yZA=="⟩ =
      .forward (apiStrip (mountRemainder "/api/foo"))
        (corsHeaders ⟨"PROPFIND", "/api/foo", none, "localhost:8080",
          some "Basic V2ViRGF2RGVtbzpXZWJEYXZQYXNzd29yZA=="⟩) ∧
    apiStrip (mountRemainder "/api/foo") = "/foo" ∧
    apiStrip (mountRemainder "/api") = "/" :=
  c3_engine_url ⟨"PROPFIND", "/api/foo", none, "localhost:8080",
      some "Basic V2ViRGF2RGVtbzpXZWJEYXZQYXNzd29yZA=="⟩
    (by decide) (by decide) (by decide)

/-- C4 (corrected): a request whose Authorization header is not valid basic
authentication is nevertheless forwarded, because the middleware ignores the
scheme token and everything after the second colon: base64 of
WebDavDemo:WebDavPassword:extra carries the basic password
WebDavPassword:extra, which differs from the hardcoded pair, yet the request
is forwarded; and a header with no second whitespace-separated token yields
a 500 response, not a 401. -/
theorem c4_counterexample :
    gateway ⟨"PROPFIND", "/api/", none, "localhost:8080",
        some "Basic V2ViRGF2RGVtbzpXZWJEYXZQYXNzd29yZDpleHRyYQ=="⟩ =
      .forward "/" (corsHeaders ⟨"PROPFIND", "/api/", none, "localhost:8080",
        some "Basic V2ViRGF2RGVtbzpXZWJEYXZQYXNzd29yZDpleHRyYQ=="⟩) ∧
    basicCredentials "Basic V2ViRGF2RGVtbzpXZWJEYXZQYXNzd29yZDpleHRyYQ==" =
      some ("WebDavDemo", "WebDavPassword:extra") ∧
    (("WebDavDemo", "WebDavPassword:extra") : String × String) ≠
      ("WebDavDemo", "WebDavPassword") ∧
    gateway ⟨"PROPFIND", "/api/", none, "localhost:8080", some "Basic"⟩ =
      .respond ⟨500, corsHeaders ⟨"PROPFIND", "/api/", none, "localhost:8080", some "Basic"⟩,
        .internalError⟩ := by
  refine ⟨by decide, by decide, by decide, by decide⟩

/-- C4 (amended): a non-OPTIONS request on the api mount is forwarded to the
engine exactly when the auth middleware accepts its Authorization header
(second whitespace token decoding to first colon field WebDavDemo and second
colon field WebDavPassword); in every other case the gateway responds itself,
with status 401, or 500 when the header has no second whitespace token. -/
theorem c4_forward_iff_accepted (req : Request) (hm : req.method ≠ "OPTIONS")
    (hmt : mountMatches req.url = true) :
    ((∃ u, gateway req = .forward u (corsHeaders req)) ↔
      authCheck req.authorization = .accept) ∧
    ∀ resp, gateway req = .respond resp → resp.status = 401 ∨ resp.status = 500 :=
  ⟨forward_iff_accept req hm hmt, gateway_api_respond_status req hm hmt⟩

/-- C4 witness: the amended theorem applied to a concrete request carrying
the hardcoded credential pair. -/
theorem c4_witness :
    ((∃ u, gateway ⟨"PROPFIND", "/api/", none, "localhost:8080",
        some "Basic V2ViRGF2RGVtbzpXZWJEYXZQYXNzd29yZA=="⟩ =
      .forward u (corsHeaders ⟨"PROPFIND", "/api/", none, "localhost:8080",
        some "Basic V2ViRGF2RGVtbzpXZWJEYXZQYXNzd29yZA=="⟩)) ↔
      authCheck (some "Basic V2ViRGF2RGVtbzpXZWJEYXZQYXNzd29yZA==") = .accept) ∧
    ∀ resp, gateway ⟨"PROPFIND", "/api/", none, "localhost:8080",
        some "Basic V2ViRGF2RGVtbzpXZWJEYXZQYXNzd29yZA=="⟩ = .respond resp →
      resp.status = 401 ∨ resp.status = 500 :=
  c4_forward_iff_accepted ⟨"PROPFIND", "/api/", none, "localhost:8080",
      some "Basic V2ViRGF2RGVtbzpXZWJEYXZQYXNzd29yZA=="⟩
    (by decide) (by decide)

/-- C5 (corrected): an OPTIONS request is answered with status 200 before
authentication, but res.sendStatus sends the status message OK as body, so
the body is not empty as the claim states. -/
theorem c5_counterexample :
    gateway ⟨"OPTIONS", "/api/", none, "localhost:8080", none⟩ =
      .respond ⟨200, corsHeaders ⟨"OPTIONS", "/api/", none, "localhost:8080", none⟩,
        .text "OK"⟩ ∧
    bodyEmpty (.text "OK") = false := by
  refine ⟨by decide, by decide⟩

/-- C5 (amended): every OPTIONS request, whatever its path and credentials,
is answered by the CORS middleware itself with status 200 and the body OK,
and is never forwarded to the auth middleware or the engine. -/
theorem c5_options_short_circuit (req : Request) (hm : req.method = "OPTIONS") :
    gateway req = .respond ⟨200, corsHeaders req, .text "OK"⟩ ∧
    ∀ u hs, gateway req ≠ .forward u hs := by
  refine ⟨by simp [gateway, hm], ?_⟩
  intro u hs h
  simp [gateway, hm] at h

/-- C5 witness: the amended theorem applied to an OPTIONS request carrying no
credentials at all. -/
theorem c5_witness :
    gateway ⟨"OPTIONS", "/api/secret", none, "localhost:8080", none⟩ =
      .respond ⟨200, corsHeaders ⟨"OPTIONS", "/api/secret", none, "localhost:8080", none⟩,
        .text "OK"⟩ ∧
    ∀ u hs, gateway ⟨"OPTIONS", "/api/secret", none, "localhost:8080", none⟩ ≠
      .forward u hs :=
  c5_options_short_circuit ⟨"OPTIONS", "/api/secret", none, "localhost:8080", none⟩ rfl

/-- C8 (confirmed): a non-OPTIONS request on the api mount with an
Authorization header is forwarded exactly when the second space-separated
token of the header base64-decodes to a string whose first colon field is
WebDavDemo and whose second colon field is WebDavPassword; the scheme token
and any further colon fields play no role. -/
theorem c8_accept_characterisation (req : Request) (h : String)
    (hm : req.method ≠ "OPTIONS") (hmt : mountMatches req.url = true)
    (hh : req.authorization = some h) :
    (∃ u, gateway req = .forward u (corsHeaders req)) ↔
      ∃ tok, (strSplit h ' ').get? 1 = some tok ∧
        (strSplit (b64ToAscii tok) ':').getD 0 "" = "WebDavDemo" ∧
        (strSplit (b64ToAscii tok) ':').get? 1 = some "WebDavPassword" := by
  rw [forward_iff_accept req hm hmt, hh]
  by_cases h0 : h = ""
  · subst h0
    simp [authCheck, strSplit, splitCharAux]
  · simp only [authCheck, h0, if_neg, if_false]
    cases hsp : (strSplit h ' ').get? 1 with
    | none => simp [h0, hsp]
    | some tok =>
      by_cases hcred : (strSplit (b64ToAscii tok) ':').getD 0 "" = "WebDavDemo" ∧
          (strSplit (b64ToAscii tok) ':').get? 1 = some "WebDavPassword"
      · simp [h0, hsp, hcred]
      · simp [h0, hsp, hcred]

/-- C8 witness: the characterisation applied to a concrete request whose
scheme token is Bearer rather than Basic; the request is still forwarded. -/
theorem c8_witness :
    (∃ u, gateway ⟨"PROPFIND", "/api/", none, "localhost:8080",
        some "Bearer V2ViRGF2RGVtbzpXZWJEYXZQYXNzd29yZA=="⟩ =
      .forward u (corsHeaders ⟨"PROPFIND", "/api/", none, "localhost:8080",
        some "Bearer V2ViRGF2RGVtbzpXZWJEYXZQYXNzd29yZA=="⟩)) ↔
      ∃ tok, (strSplit "Bearer V2ViRGF2RGVtbzpXZWJEYXZQYXNzd29yZA==" ' ').get? 1 = some tok ∧
        (strSplit (b64ToAscii tok) ':').getD 0 "" = "WebDavDemo" ∧
        (strSplit (b64ToAscii tok) ':').get? 1 = some "WebDavPassword" :=
  c8_accept_characterisation ⟨"PROPFIND", "/api/", none, "localhost:8080",
      some "Bearer V2ViRGF2RGVtbzpXZWJEYXZQYXNzd29yZA=="⟩
    "Bearer V2ViRGF2RGVtbzpXZWJEYXZQYXNzd29yZA==" (by decide) (by decide) rfl

/-- Helper: comparing code lists in the other direction swaps the result. -/
lemma cmpCodes_swap (x : List Nat) : ∀ y : List Nat, cmpCodes y x = (cmpCodes x y).swap := by
  induction x with
  | nil => intro y; cases y <;> rfl
  | cons a xs ih =>
    intro y
    cases y with
    | nil => rfl
    | cons b ys =>
      simp only [cmpCodes]
      by_cases hab : a < b
      · have hba : ¬ b < a := by omega
        simp [hab, hba, Ordering.swap]
      · by_cases hba : b < a
        · simp [hab, hba, Ordering.swap]
        · simp [hab, hba, ih]

/-- Helper: code lists compare equal exactly when they are equal. -/
lemma cmpCodes_eq_iff (x : List Nat) : ∀ y : List Nat, cmpCodes x y = .eq ↔ x = y := by
  induction x with
  | nil => intro y; cases y <;> simp [cmpCodes]
  | cons a xs ih =>
    intro y
    cases y with
    | nil => simp [cmpCodes]
    | cons b ys =>
      simp only [cmpCodes]
      by_cases hab : a < b
      · have : a ≠ b := by omega
        simp [hab, this]
      · by_cases hba : b < a
        · have : a ≠ b := by omega
          simp [hab, hba, this]
        · have : a = b := by omega
          subst this
          simp [hab, hba, ih]

/-- Helper: the strict comparison of code lists is transitive. -/
lemma cmpCodes_lt_trans (x : List Nat) : ∀ y z : List Nat,
    cmpCodes x y = .lt → cmpCodes y z = .lt → cmpCodes x z = .lt := by
  induction x with
  | nil =>
    intro y z h1 h2
    cases y with
    | nil => simp [cmpCodes] at h1
    | cons b ys =>
      cases z with
      | nil => simp [cmpCodes] at h2
      | cons c zs => simp [cmpCodes]
  | cons a xs ih =>
    intro y z h1 h2
    cases y with
    | nil => simp [cmpCodes] at h1
    | cons b ys =>
      cases z with
      | nil => simp [cmpCodes] at h2
      | cons c zs =>
        simp only [cmpCodes] at h1 h2 ⊢
        by_cases hab : a < b
        · by_cases hbc : b < c
          · rw [if_pos (Nat.lt_trans hab hbc)]
          · by_cases hcb : c < b
            · rw [if_neg hbc, if_pos hcb] at h2
              exact Ordering.noConfusion h2
            · have hbec : b = c := by omega
              subst hbec
              rw [if_pos hab]
        · by_cases hba : b < a
          · rw [if_neg hab, if_pos hba] at h1
            exact Ordering.noConfusion h1
          · have haeb : a = b := by omega
            subst haeb
            by_cases hac : a < c
            · rw [if_pos hac]
            · by_cases hca : c < a
              · rw [if_neg hac, if_pos hca] at h2
                exact Ordering.noConfusion h2
              · rw [if_neg hac, if_neg hca] at h2 ⊢
                rw [if_neg hab, if_neg hba] at h1
                exact ih ys zs h1 h2

/-- Helper: the nonstrict comparison of code lists is transitive. -/
lemma cmpCodes_ngt_trans (x y z : List Nat) (h1 : cmpCodes x y ≠ .gt)
    (h2 : cmpCodes y z ≠ .gt) : cmpCodes x z ≠ .gt := by
  cases hxy : cmpCodes x y with
  | gt => exact absurd hxy h1
  | eq =>
    rw [cmpCodes_eq_iff] at hxy
    subst hxy
    exact h2
  | lt =>
    cases hyz : cmpCodes y z with
    | gt => exact absurd hyz h2
    | eq =>
      rw [cmpCodes_eq_iff] at hyz
      subst hyz
      simp [hxy]
    | lt => simp [cmpCodes_lt_trans x y z hxy hyz]

/-- Helper: characterisation of a nonpositive locale comparison. -/
lemma localeCompare_le_iff (a b : String) : localeCompare a b ≤ 0 ↔
    (cmpCodes (primKey a) (primKey b) ≠ .gt ∧
      (cmpCodes (primKey a) (primKey b) = .eq →
        cmpCodes (caseKey a) (caseKey b) ≠ .gt)) := by
  unfold localeCompare
  cases cmpCodes (primKey a) (primKey b) <;>
    cases cmpCodes (caseKey a) (caseKey b) <;> simp

/-- Helper: the locale comparison is total. -/
lemma localeCompare_total (a b : String) :
    localeCompare a b ≤ 0 ∨ localeCompare b a ≤ 0 := by
  rw [localeCompare_le_iff, localeCompare_le_iff]
  cases h : cmpCodes (primKey a) (primKey b) with
  | lt =>
    left
    refine ⟨by simp [h], ?_⟩
    intro heq
    exact Ordering.noConfusion heq
  | gt =>
    right
    have hba : cmpCodes (primKey b) (primKey a) = .lt := by
      rw [cmpCodes_swap, h]
      rfl
    refine ⟨by simp [hba], ?_⟩
    intro heq
    rw [hba] at heq
    exact Ordering.noConfusion heq
  | eq =>
    have hba : cmpCodes (primKey b) (primKey a) = .eq := by
      rw [cmpCodes_swap, h]
      rfl
    cases hc : cmpCodes (caseKey a) (caseKey b) with
    | lt => exact Or.inl ⟨by simp [h], fun _ => by simp [hc]⟩
    | eq => exact Or.inl ⟨by simp [h], fun _ => by simp [hc]⟩
    | gt =>
      refine Or.inr ⟨by simp [hba], fun _ => ?_⟩
      rw [cmpCodes_swap, hc]
      simp [Ordering.swap]

/-- Helper: the nonpositive locale comparison is transitive. -/
lemma localeCompare_le_trans (a b c : String) (h1 : localeCompare a b ≤ 0)
    (h2 : localeCompare b c ≤ 0) : localeCompare a c ≤ 0 := by
  rw [localeCompare_le_iff] at h1 h2 ⊢
  obtain ⟨p1, t1⟩ := h1
  obtain ⟨p2, t2⟩ := h2
  refine ⟨cmpCodes_ngt_trans _ _ _ p1 p2, ?_⟩
  intro hac
  cases hab : cmpCodes (primKey a) (primKey b) with
  | gt => exact absurd hab p1
  | lt =>
    cases hbc : cmpCodes (primKey b) (primKey c) with
    | gt => exact absurd hbc p2
    | lt =>
      have := cmpCodes_lt_trans _ _ _ hab hbc
      rw [hac] at this
      exact Ordering.noConfusion this
    | eq =>
      rw [cmpCodes_eq_iff] at hbc
      rw [hbc] at hab
      rw [hac] at hab
      exact Ordering.noConfusion hab
  | eq =>
    have hablist := (cmpCodes_eq_iff _ _).mp hab
    have hbc : cmpCodes (primKey b) (primKey c) = .eq := by
      rw [← hablist]
      exact hac
    exact cmpCodes_ngt_trans _ _ _ (t1 hab) (t2 hbc)

/-- Helper: the comparator relation of the listing sort is total. -/
lemma entryLe_total (a b : Entry) : (entryLe a b || entryLe b a) = true := by
  cases ha : a.isDirectory <;> cases hb : b.isDirectory <;>
      simp [entryLe, entryCmp, ha, hb] <;>
    exact localeCompare_total a.name b.name

/-- Helper: the comparator relation of the listing sort is transitive. -/
lemma entryLe_trans (a b c : Entry) (h1 : entryLe a b = true)
    (h2 : entryLe b c = true) : entryLe a c = true := by
  cases ha : a.isDirectory <;> cases hb : b.isDirectory <;> cases hc : c.isDirectory <;>
      simp [entryLe, entryCmp, ha, hb, hc] at h1 h2 ⊢ <;>
    exact localeCompare_le_trans _ _ _ h1 h2

/-- Helper: membership after an insertion. -/
lemma mem_insertLe {α : Type} (le : α → α → Bool) (x z : α) :
    ∀ l : List α, z ∈ insertLe le x l → z = x ∨ z ∈ l := by
  intro l
  induction l with
  | nil =>
    intro h
    simp [insertLe] at h
    exact Or.inl h
  | cons y ys ih =>
    intro h
    by_cases hxy : le x y = true
    · simp only [insertLe, if_pos hxy] at h
      rcases List.mem_cons.mp h with h | h
      · exact Or.inl h
      · exact Or.inr h
    · simp only [insertLe, if_neg hxy] at h
      rcases List.mem_cons.mp h with h | h
      · exact Or.inr (by simp [h])
      · rcases ih h with h1 | h1
        · exact Or.inl h1
        · exact Or.inr (by simp [h1])

/-- Helper: insertion preserves pairwise sortedness for a total transitive
comparator relation. -/
lemma pairwise_insertLe {α : Type} (le : α → α → Bool)
    (htotal : ∀ a b, (le a b || le b a) = true)
    (htrans : ∀ a b c, le a b = true → le b c = true → le a c = true) (x : α) :
    ∀ l : List α, l.Pairwise (fun a b => le a b = true) →
      (insertLe le x l).Pairwise (fun a b => le a b = true) := by
  intro l
  induction l with
  | nil =>
    intro _
    simp [insertLe]
  | cons y ys ih =>
    intro hp
    obtain ⟨hy, hys⟩ := List.pairwise_cons.mp hp
    by_cases hxy : le x y = true
    · simp only [insertLe, if_pos hxy]
      refine List.pairwise_cons.mpr ⟨?_, hp⟩
      intro z hz
      rcases List.mem_cons.mp hz with rfl | hz2
      · exact hxy
      · exact htrans x y z hxy (hy z hz2)
    · simp only [insertLe, if_neg hxy]
      have hyx : le y x = true := by
        have := htotal x y
        rw [Bool.or_eq_true] at this
        rcases this with h | h
        · exact absurd h hxy
        · exact h
      refine List.pairwise_cons.mpr ⟨?_, ih hys⟩
      intro z hz
      rcases mem_insertLe le x z ys hz with rfl | hz2
      · exact hyx
      · exact hy z hz2

/-- Helper: the insertion sort output is pairwise ordered. -/
lemma pairwise_insertionSort {α : Type} (le : α → α → Bool)
    (htotal : ∀ a b, (le a b || le b a) = true)
    (htrans : ∀ a b c, le a b = true → le b c = true → le a c = true) :
    ∀ l : List α, (insertionSort le l).Pairwise (fun a b => le a b = true) := by
  intro l
  induction l with
  | nil => simp [insertionSort]
  | cons x xs ih => exact pairwise_insertLe le htotal htrans x (insertionSort le xs) ih

/-- Helper: insertion produces a permutation. -/
lemma perm_insertLe {α : Type} (le : α → α → Bool) (x : α) :
    ∀ l : List α, List.Perm (insertLe le x l) (x :: l) := by
  intro l
  induction l with
  | nil => simp [insertLe]
  | cons y ys ih =>
    by_cases hxy : le x y = true
    · simp [insertLe, hxy]
    · simp only [insertLe, if_neg hxy]
      exact List.Perm.trans (List.Perm.cons y ih) (List.Perm.swap x y ys)

/-- Helper: the insertion sort output is a permutation of the input. -/
lemma perm_insertionSort {α : Type} (le : α → α → Bool) :
    ∀ l : List α, List.Perm (insertionSort le l) l := by
  intro l
  induction l with
  | nil => simp [insertionSort]
  | cons x xs ih =>
    exact List.Perm.trans (perm_insertLe le x (insertionSort le xs)) (List.Perm.cons x ih)

/-- Helper: fetchFiles leaves the selection, authentication and credential
fields of the client state unchanged. -/
lemma fetchFiles_frame (fmt : String → String) (st : ClientState) (o : FetchOutcome) :
    (fetchFiles fmt st o).1.selectedFile = st.selectedFile ∧
    (fetchFiles fmt st o).1.folderName = st.folderName ∧
    (fetchFiles fmt st o).1.isAuthenticated = st.isAuthenticated ∧
    (fetchFiles fmt st o).1.authCredentials = st.authCredentials ∧
    (fetchFiles fmt st o).1.defaultAuthHeader = st.defaultAuthHeader ∧
    (fetchFiles fmt st o).1.storedCredentials = st.storedCredentials := by
  cases o with
  | ok rs =>
    by_cases h0 : 0 < (sortEntries (buildFileList fmt rs)).length <;>
      simp [fetchFiles, h0]
  | httpError s t => simp [fetchFiles]
  | noResponse => simp [fetchFiles]
  | setupError m => simp [fetchFiles]

/-- Helper: fetchFiles never changes the stored credential. -/
lemma fetchFiles_stored (fmt : String → String) (st : ClientState) (o : FetchOutcome) :
    (fetchFiles fmt st o).1.storedCredentials = st.storedCredentials :=
  (fetchFiles_frame fmt st o).2.2.2.2.2

/-- Helper: fetchFiles never changes the default Authorization header. -/
lemma fetchFiles_header (fmt : String → String) (st : ClientState) (o : FetchOutcome) :
    (fetchFiles fmt st o).1.defaultAuthHeader = st.defaultAuthHeader :=
  (fetchFiles_frame fmt st o).2.2.2.2.1

/-- Helper: fetchFiles never changes the authentication flag. -/
lemma fetchFiles_isAuth (fmt : String → String) (st : ClientState) (o : FetchOutcome) :
    (fetchFiles fmt st o).1.isAuthenticated = st.isAuthenticated :=
  (fetchFiles_frame fmt st o).2.2.1

/-- Helper: fetchFiles never changes the recorded credential pair. -/
lemma fetchFiles_authCred (fmt : String → String) (st : ClientState) (o : FetchOutcome) :
    (fetchFiles fmt st o).1.authCredentials = st.authCredentials :=
  (fetchFiles_frame fmt st o).2.2.2.1

/-- C6 (corrected): the comparator orders the names a and A strictly (the
locale comparison puts the lowercase variant first), so two names differing
only in letter case do not compare equal, and sorting actually swaps such a
pair of files. -/
theorem c6_counterexample :
    entryCmp ⟨"a", "/a", false, "", .int 0⟩ ⟨"A", "/A", false, "", .int 0⟩ ≠ 0 ∧
    localeCompare "a" "A" = -1 ∧
    sortEntries [⟨"A", "/A", false, "", .int 0⟩, ⟨"a", "/a", false, "", .int 0⟩] =
      [⟨"a", "/a", false, "", .int 0⟩, ⟨"A", "/A", false, "", .int 0⟩] := by
  refine ⟨by decide, by decide, by decide⟩

/-- C6 (amended): the listing sort keeps exactly the given entries, places
every directory before every file, and orders entries of one kind by the
default-locale comparison of their names, which groups letter-case variants
together but still distinguishes them, lowercase first. -/
theorem c6_sorted (l : List Entry) :
    ((sortEntries l).Pairwise fun a b => a.isDirectory = false → b.isDirectory = false) ∧
    ((sortEntries l).Pairwise fun a b =>
      a.isDirectory = b.isDirectory → localeCompare a.name b.name ≤ 0) ∧
    List.Perm (sortEntries l) l := by
  have hp : (sortEntries l).Pairwise (fun a b => entryLe a b = true) :=
    pairwise_insertionSort entryLe entryLe_total entryLe_trans l
  refine ⟨List.Pairwise.imp ?_ hp, List.Pairwise.imp ?_ hp, perm_insertionSort entryLe l⟩
  · intro a b hle ha
    by_cases hb : b.isDirectory
    · exfalso
      have hcmp : entryCmp a b = 1 := by simp [entryCmp, ha, hb]
      simp [entryLe, hcmp] at hle
    · simpa using hb
  · intro a b hle hd
    simpa [entryLe, entryCmp, hd] using hle

/-- C7 (confirmed): handleLogin succeeds exactly on status 200 or 207 of the
PROPFIND probe (a root PROPFIND with depth one); on success the encoded
credential is persisted and the default Authorization header keeps carrying
it; on any failure, HTTP or network, both are cleared. -/
theorem c7_login_success_condition (fmt : String → String) (st : ClientState)
    (u p : String) (n : Nat) (fetch : FetchOutcome) :
    ((handleLogin fmt st u p (.status n) fetch).2.2 = .ok ↔ (n = 200 ∨ n = 207)) ∧
    ((n = 200 ∨ n = 207) →
      (handleLogin fmt st u p (.status n) fetch).1.storedCredentials =
          some (btoa (u ++ ":" ++ p)) ∧
        (handleLogin fmt st u p (.status n) fetch).1.defaultAuthHeader =
          some ("Basic " ++ btoa (u ++ ":" ++ p)) ∧
        (handleLogin fmt st u p (.status n) fetch).1.isAuthenticated = true ∧
        (handleLogin fmt st u p (.status n) fetch).1.authCredentials = some (u, p)) ∧
    (¬(n = 200 ∨ n = 207) →
      (handleLogin fmt st u p (.status n) fetch).1.storedCredentials = none ∧
        (handleLogin fmt st u p (.status n) fetch).1.defaultAuthHeader = none) ∧
    ((handleLogin fmt st u p (.status n) fetch).2.1.head? = some loginRequest ∧
      loginRequest.method = "PROPFIND" ∧ loginRequest.url = "/" ∧
      headerVal loginRequest.headers "Depth" = some "1") ∧
    (∀ m, (handleLogin fmt st u p (.networkError m) fetch).2.2 ≠ .ok ∧
      (handleLogin fmt st u p (.networkError m) fetch).1.storedCredentials = none ∧
      (handleLogin fmt st u p (.networkError m) fetch).1.defaultAuthHeader = none) := by
  by_cases hs : n = 207 ∨ n = 200
  · have h2xx : 200 ≤ n ∧ n < 300 := by rcases hs with rfl | rfl <;> omega
    refine ⟨?_, ?_, ?_, ?_, ?_⟩
    · simp only [handleLogin, if_pos h2xx, if_pos hs]
      simp [hs.symm]
    · intro _
      simp only [handleLogin, if_pos h2xx, if_pos hs]
      simp [fetchFiles_stored, fetchFiles_header, fetchFiles_isAuth, fetchFiles_authCred]
    · intro hnot
      exact absurd hs.symm hnot
    · refine ⟨?_, rfl, rfl, by decide⟩
      simp [handleLogin, h2xx, hs]
    · intro m
      refine ⟨by simp [handleLogin], by simp [handleLogin], by simp [handleLogin]⟩
  · refine ⟨?_, ?_, ?_, ?_, ?_⟩
    · by_cases h2xx : 200 ≤ n ∧ n < 300
      · simp only [handleLogin, if_pos h2xx, if_neg hs]
        constructor
        · intro h
          exact absurd h (by simp)
        · intro h
          exact absurd h.symm hs
      · simp only [handleLogin, if_neg h2xx]
        constructor
        · intro h
          exact absurd h (by simp)
        · intro h
          exact absurd h.symm hs
    · intro h
      exact absurd h.symm hs
    · intro _
      by_cases h2xx : 200 ≤ n ∧ n < 300
      · simp [handleLogin, h2xx, hs]
      · simp [handleLogin, h2xx]
    · refine ⟨?_, rfl, rfl, by decide⟩
      by_cases h2xx : 200 ≤ n ∧ n < 300
      · simp [handleLogin, h2xx, hs]
      · simp [handleLogin, h2xx]
    · intro m
      refine ⟨by simp [handleLogin], by simp [handleLogin], by simp [handleLogin]⟩

/-- C7 witness: the theorem applied to the empty client state, the hardcoded
pair and a concrete 207 probe response. -/
theorem c7_witness :
    ((handleLogin (fun s => s) ⟨[], none, "", "", false, none, none, none⟩
        "WebDavDemo" "WebDavPassword" (.status 207) .noResponse).2.2 = .ok ↔
      ((207 : Nat) = 200 ∨ (207 : Nat) = 207)) ∧
    (((207 : Nat) = 200 ∨ (207 : Nat) = 207) →
      (handleLogin (fun s => s) ⟨[], none, "", "", false, none, none, none⟩
          "WebDavDemo" "WebDavPassword" (.status 207) .noResponse).1.storedCredentials =
          some (btoa ("WebDavDemo" ++ ":" ++ "WebDavPassword")) ∧
        (handleLogin (fun s => s) ⟨[], none, "", "", false, none, none, none⟩
          "WebDavDemo" "WebDavPassword" (.status 207) .noResponse).1.defaultAuthHeader =
          some ("Basic " ++ btoa ("WebDavDemo" ++ ":" ++ "WebDavPassword")) ∧
        (handleLogin (fun s => s) ⟨[], none, "", "", false, none, none, none⟩
          "WebDavDemo" "WebDavPassword" (.status 207) .noResponse).1.isAuthenticated = true ∧
        (handleLogin (fun s => s) ⟨[], none, "", "", false, none, none, none⟩
          "WebDavDemo" "WebDavPassword" (.status 207) .noResponse).1.authCredentials =
          some ("WebDavDemo", "WebDavPassword")) ∧
    (¬((207 : Nat) = 200 ∨ (207 : Nat) = 207) →
      (handleLogin (fun s => s) ⟨[], none, "", "", false, none, none, none⟩
          "WebDavDemo" "WebDavPassword" (.status 207) .noResponse).1.storedCredentials = none ∧
        (handleLogin (fun s => s) ⟨[], none, "", "", false, none, none, none⟩
          "WebDavDemo" "WebDavPassword" (.status 207) .noResponse).1.defaultAuthHeader = none) ∧
    ((handleLogin (fun s => s) ⟨[], none, "", "", false, none, none, none⟩
        "WebDavDemo" "WebDavPassword" (.status 207) .noResponse).2.1.head? =
        some loginRequest ∧
      loginRequest.method = "PROPFIND" ∧ loginRequest.url = "/" ∧
      headerVal loginRequest.headers "Depth" = some "1") ∧
    (∀ m, (handleLogin (fun s => s) ⟨[], none, "", "", false, none, none, none⟩
        "WebDavDemo" "WebDavPassword" (.networkError m) .noResponse).2.2 ≠ .ok ∧
      (handleLogin (fun s => s) ⟨[], none, "", "", false, none, none, none⟩
        "WebDavDemo" "WebDavPassword" (.networkError m) .noResponse).1.storedCredentials =
        none ∧
      (handleLogin (fun s => s) ⟨[], none, "", "", false, none, none, none⟩
        "WebDavDemo" "WebDavPassword" (.networkError m) .noResponse).1.defaultAuthHeader =
        none) :=
  c7_login_success_condition (fun s => s) ⟨[], none, "", "", false, none, none, none⟩
    "WebDavDemo" "WebDavPassword" 207 .noResponse

/-- C9 (confirmed): an entry is excluded from the parsed file list exactly
when its href is the literal local root url, and a root collection under a
production base url is included. -/
theorem c9_root_skip (fmt : String → String) (rs : List RawResponse) (h : String) :
    (h ∈ (buildFileList fmt rs).map Entry.href ↔
      (h ∈ rs.map RawResponse.href ∧ h ≠ "http://localhost:8080/")) ∧
    buildFileList (fun s => s)
        [⟨"https://webdav-demo.example.net/", some "root", true, none, none⟩] =
      [mkEntry (fun s => s)
        ⟨"https://webdav-demo.example.net/", some "root", true, none, none⟩] := by
  refine ⟨?_, by decide⟩
  induction rs with
  | nil => simp [buildFileList]
  | cons r rest ih =>
    by_cases hr : r.href = "http://localhost:8080/"
    · rw [List.map_cons, List.mem_cons]
      simp only [buildFileList, if_pos hr]
      rw [ih]
      constructor
      · intro hm
        exact ⟨Or.inr hm.1, hm.2⟩
      · rintro ⟨hin | hmem, hne⟩
        · exact absurd (hin.trans hr) hne
        · exact ⟨hmem, hne⟩
    · rw [List.map_cons, List.mem_cons]
      simp only [buildFileList, if_neg hr, List.map_cons, List.mem_cons]
      rw [ih]
      have hhref : (mkEntry fmt r).href = r.href := rfl
      rw [hhref]
      constructor
      · rintro (rfl | hm)
        · exact ⟨Or.inl rfl, hr⟩
        · exact ⟨Or.inr hm.1, hm.2⟩
      · rintro ⟨hin | hmem, hne⟩
        · exact Or.inl hin
        · exact Or.inr ⟨hmem, hne⟩

/-- C10 (confirmed): with no file selected, uploadFile only changes the
status line and issues no request, and with an empty folder name so does
createFolder; the file list, the selection, the folder name and every
authentication field are unchanged. -/
theorem c10_guards (fmt : String → String) (st : ClientState) (read : ReadOutcome)
    (put : AxiosOutcome) (fetch1 : FetchOutcome) (mk : AxiosOutcome)
    (fetch2 : FetchOutcome) (hup : st.selectedFile = none) (hfn : st.folderName = "") :
    uploadFile fmt st read put fetch1 =
      ({st with status := "Please select a file first"}, []) ∧
    createFolder fmt st mk fetch2 =
      ({st with status := "Please enter a folder name"}, []) ∧
    (uploadFile fmt st read put fetch1).1.files = st.files ∧
    (uploadFile fmt st read put fetch1).1.selectedFile = st.selectedFile ∧
    (uploadFile fmt st read put fetch1).1.isAuthenticated = st.isAuthenticated ∧
    (uploadFile fmt st read put fetch1).1.authCredentials = st.authCredentials ∧
    (uploadFile fmt st read put fetch1).1.storedCredentials = st.storedCredentials ∧
    (uploadFile fmt st read put fetch1).1.defaultAuthHeader = st.defaultAuthHeader ∧
    (createFolder fmt st mk fetch2).1.files = st.files ∧
    (createFolder fmt st mk fetch2).1.selectedFile = st.selectedFile ∧
    (createFolder fmt st mk fetch2).1.isAuthenticated = st.isAuthenticated ∧
    (createFolder fmt st mk fetch2).1.authCredentials = st.authCredentials ∧
    (createFolder fmt st mk fetch2).1.storedCredentials = st.storedCredentials ∧
    (createFolder fmt st mk fetch2).1.defaultAuthHeader = st.defaultAuthHeader := by
  have hu : uploadFile fmt st read put fetch1 =
      ({st with status := "Please select a file first"}, []) := by
    simp [uploadFile, hup]
  have hc : createFolder fmt st mk fetch2 =
      ({st with status := "Please enter a folder name"}, []) := by
    simp [createFolder, hfn]
  rw [hu, hc]
  refine ⟨rfl, rfl, rfl, rfl, rfl, rfl, rfl, rfl, rfl, rfl, rfl, rfl, rfl, rfl⟩

/-- C10 witness: the theorem applied to the empty client state with concrete
outcomes. -/
theorem c10_witness :
    uploadFile (fun s => s) ⟨[], none, "", "", false, none, none, none⟩
        .ok (.status 201) .noResponse =
      (⟨[], none, "", "Please select a file first", false, none, none, none⟩, []) ∧
    createFolder (fun s => s) ⟨[], none, "", "", false, none, none, none⟩
        (.status 201) .noResponse =
      (⟨[], none, "", "Please enter a folder name", false, none, none, none⟩, []) := by
  have h := c10_guards (fun s => s) ⟨[], none, "", "", false, none, none, none⟩
    .ok (.status 201) .noResponse (.status 201) .noResponse rfl rfl
  exact ⟨h.1, h.2.1⟩

end WebDavDemo
